import Mathlib

/-!
Shallow embedding of the sidecar process supervisor in
`src/desktop/src-tauri/src/lib.rs`.

The supervisor owns a single shared `BackendState` (handle, port, running
flag) behind a mutex.  The commands `start_backend`, `stop_backend`,
`get_backend_status` and `get_backend_port` and the event-bridge task spawned
by `start_backend` are modelled as pure functions over that state; the
outcomes of the external world (the port allocator, sidecar creation, spawn,
kill, and the stream of process events) are passed in explicitly.
-/

deriving instance DecidableEq for Except

/-- Handle to a spawned sidecar process (`CommandChild` from
`tauri_plugin_shell`), abstracted to an identifier. -/
abbrev CommandChild := Nat

/-- The shared backend state (`struct BackendState`, lib.rs lines 9-13):
`child: Option<CommandChild>`, `port: u16`, `running: bool`.  Ports are
modelled as `Nat`; every port the program manipulates is a `u16` value. -/
structure BackendState where
  child : Option CommandChild
  port : Nat
  running : Bool
deriving DecidableEq, Repr

/-- The `Default` impl (lib.rs lines 15-23): no child, port 8000, not
running. -/
def BackendState.default : BackendState :=
  { child := none, port := 8000, running := false }

/-- The status snapshot (`struct BackendStatus`, lib.rs lines 27-31). -/
structure BackendStatus where
  running : Bool
  port : Nat
deriving DecidableEq, Repr

/-- The invariant stated by the spec for `BackendProcessState`:
`running == true` iff the handle is present.  Stated as a boolean equation,
which is equivalent to the biconditional. -/
def BackendState.inv (s : BackendState) : Prop :=
  s.running = s.child.isSome

instance (s : BackendState) : Decidable s.inv := by
  unfold BackendState.inv; infer_instance

/-- The result of `portpicker::pick_unused_port().unwrap_or(8000)`
(lib.rs line 57): the allocator's outcome is `r` (`none` on allocation
failure), and failure falls back to the fixed default port 8000. -/
def pick_unused_port_or_default (r : Option Nat) : Nat :=
  r.getD 8000

/-- Contract of the external `portpicker` allocator as the spec states it:
a successfully allocated port lies in the valid dynamic/ephemeral range
(nonzero, above the well-known ports, within `u16`). -/
def ephemeralPort (p : Nat) : Prop :=
  1024 ≤ p ∧ p ≤ 65535

/-- Outcomes of the external world during one `start_backend` call:
the port allocator's answer, the result of creating the sidecar command
(`app.shell().sidecar("python-backend")`), and the result of spawning it. -/
structure StartEnv where
  pickResult : Option Nat
  sidecarResult : Except String Unit
  spawnResult : Except String CommandChild
deriving Repr

/-- What one `start_backend` call produces: the value returned to the
caller, the shared state afterwards, and whether an OS process was
actually spawned during the call. -/
structure StartResult where
  ret : Except String Nat
  state : BackendState
  spawned : Bool
deriving DecidableEq, Repr

/-- `start_backend` (lib.rs lines 44-108) as a function of the shared state.
If `running` is observed true under the lock it returns the stored port at
once (lines 49-54).  Otherwise it picks a port (line 57), builds the sidecar
command (lines 60-64, error surfaced with the `Failed to create sidecar
command` message), spawns it (lines 66-68, error surfaced with the `Failed
to spawn sidecar` message), and on success commits
`child = Some(..), port, running = true` under the lock (lines 71-76) and
returns the port (line 107).  The event-bridge task it spawns is modelled
separately by `event_bridge`. -/
def start_backend (env : StartEnv) (s : BackendState) : StartResult :=
  if s.running then
    { ret := .ok s.port, state := s, spawned := false }
  else
    let port := pick_unused_port_or_default env.pickResult
    match env.sidecarResult with
    | .error e =>
        { ret := .error ("Failed to create sidecar command: " ++ e),
          state := s, spawned := false }
    | .ok _ =>
        match env.spawnResult with
        | .error e =>
            { ret := .error ("Failed to spawn sidecar: " ++ e),
              state := s, spawned := false }
        | .ok child =>
            { ret := .ok port,
              state := { child := some child, port := port, running := true },
              spawned := true }

/-- `stop_backend` (lib.rs lines 112-121) as a function of the shared state.
`backend.child.take()` removes the handle first; if a child was present,
`child.kill()` runs with outcome `killResult`, and the `?` operator
propagates a kill error immediately — on that path the function returns
before the `backend.running = false` line runs. -/
def stop_backend (killResult : Except String Unit) (s : BackendState) :
    Except String Unit × BackendState :=
  match s.child with
  | some _ =>
      match killResult with
      | .error e =>
          (.error ("Failed to kill backend: " ++ e), { s with child := none })
      | .ok _ =>
          (.ok (), { s with child := none, running := false })
  | none => (.ok (), { s with running := false })

/-- `get_backend_status` (lib.rs lines 125-131): a snapshot of
`(running, port)` under the lock, always `Ok`. -/
def get_backend_status (s : BackendState) : Except String BackendStatus :=
  .ok { running := s.running, port := s.port }

/-- `get_backend_port` (lib.rs lines 135-138): a snapshot of `port` under
the lock, always `Ok`. -/
def get_backend_port (s : BackendState) : Except String Nat :=
  .ok s.port

/-- The events the spawned child's channel can deliver
(`tauri_plugin_shell::process::CommandEvent`, as matched in lib.rs
lines 84-100): stdout line, stderr line, termination carrying an optional
exit code, or anything else (the wildcard arm). -/
inductive CommandEvent
  | stdout (line : String)
  | stderr (line : String)
  | terminated (code : Option Int)
  | other
deriving DecidableEq, Repr

/-- Events the event-bridge task emits to the app
(`backend-log`, `backend-error`, `backend-terminated`). -/
inductive Emitted
  | backendLog (line : String)
  | backendError (line : String)
  | backendTerminated (code : Option Int)
deriving DecidableEq, Repr

/-- Whether a channel event is the termination notification. -/
def CommandEvent.isTerminated : CommandEvent → Bool
  | .terminated _ => true
  | _ => false

/-- Whether an emitted event is a `backend-terminated` event. -/
def Emitted.isTerminated : Emitted → Bool
  | .backendTerminated _ => true
  | _ => false

/-- The event-bridge task spawned by `start_backend` (lib.rs lines 81-102),
as a function of the list of events its receiver will deliver: a stdout line
emits `backend-log`, a stderr line emits `backend-error`, and a termination
emits `backend-terminated` with the exit code, then (under the supervisor's
lock) sets `running = false` and clears the handle, then `break`s out of the
loop, ignoring anything after it.  Other events are skipped. -/
def event_bridge : List CommandEvent → BackendState → List Emitted × BackendState
  | [], s => ([], s)
  | .stdout line :: rest, s =>
      let r := event_bridge rest s
      (.backendLog line :: r.1, r.2)
  | .stderr line :: rest, s =>
      let r := event_bridge rest s
      (.backendError line :: r.1, r.2)
  | .terminated code :: _, s =>
      ([.backendTerminated code], { s with running := false, child := none })
  | .other :: rest, s => event_bridge rest s

/-! ## Interleaving model of concurrent `start_backend` calls

`start_backend` holds the lock only for its initial `running` check
(lib.rs lines 49-54) and for its commit (lines 71-76); the port pick and the
spawn happen with the lock released.  To reason about concurrent calls, each
in-flight call is a task that advances through three atomic steps: the
locked check (combined with the lock-free port pick, which touches no shared
state), the lock-free spawn, and the locked commit.  A schedule is the list
of task indices in the order their next step runs. -/

/-- The control point of one in-flight `start_backend` call. -/
inductive StartPhase
  | ready
  | willSpawn (port : Nat)
  | willCommit (port : Nat) (child : CommandChild)
  | done (ret : Except String Nat)
deriving DecidableEq, Repr

/-- A configuration of the concurrent system: the shared state, the control
point of each task, how many OS processes have been spawned so far, and
fresh-name counters for picked ports and child handles.  In this model the
allocator and the spawn always succeed, which is the interesting case for
the duplicate-start race. -/
structure Conf where
  st : BackendState
  tasks : List StartPhase
  spawnCount : Nat
  nextPort : Nat
  nextChild : CommandChild
deriving DecidableEq, Repr

/-- Initial configuration: default state, `n` callers about to run
`start_backend`, no process spawned yet. -/
def Conf.init (n : Nat) : Conf :=
  { st := BackendState.default, tasks := List.replicate n .ready,
    spawnCount := 0, nextPort := 9100, nextChild := 0 }

/-- One atomic step of task `i`.  `ready`: the locked check of lines 49-54
(if `running`, return the stored port and finish) followed, when not
running, by the lock-free port pick of line 57.  `willSpawn`: the spawn of
lines 66-68, creating a new OS process.  `willCommit`: the locked commit of
lines 71-76, overwriting `child`, `port` and `running`, then returning the
picked port.  A finished or out-of-range task leaves the configuration
unchanged. -/
def stepStart (c : Conf) (i : Nat) : Conf :=
  match c.tasks.get? i with
  | none => c
  | some .ready =>
      if c.st.running then
        { c with tasks := c.tasks.set i (.done (.ok c.st.port)) }
      else
        { c with tasks := c.tasks.set i (.willSpawn c.nextPort),
                 nextPort := c.nextPort + 1 }
  | some (.willSpawn port) =>
      { c with tasks := c.tasks.set i (.willCommit port c.nextChild),
               spawnCount := c.spawnCount + 1,
               nextChild := c.nextChild + 1 }
  | some (.willCommit port child) =>
      { c with st := { child := some child, port := port, running := true },
               tasks := c.tasks.set i (.done (.ok port)) }
  | some (.done _) => c

/-- Run a schedule (a list of task indices) from a configuration. -/
def runSchedule (sched : List Nat) (c : Conf) : Conf :=
  sched.foldl stepStart c

/-- `n` serialized `start_backend` calls, each completing before the next
begins, all under the same environment outcomes: the returned values, the
final state, and the number of processes spawned. -/
def runStartsSeq (env : StartEnv) :
    Nat → BackendState → List (Except String Nat) × BackendState × Nat
  | 0, s => ([], s, 0)
  | n + 1, s =>
      let r := start_backend env s
      let rest := runStartsSeq env n r.state
      (r.ret :: rest.1, rest.2.1, (if r.spawned then 1 else 0) + rest.2.2)

/-- Environment in which the allocator, sidecar creation and spawn all
succeed. -/
def envOk : StartEnv :=
  { pickResult := some 9200, sidecarResult := .ok (), spawnResult := .ok 4 }

/-- Environment in which creating the sidecar command fails. -/
def envSidecarErr : StartEnv :=
  { pickResult := some 9200, sidecarResult := .error "nope", spawnResult := .ok 4 }

/-- Environment in which the spawn itself fails. -/
def envSpawnErr : StartEnv :=
  { pickResult := some 9200, sidecarResult := .ok (), spawnResult := .error "nospawn" }

/-! ## Theorems -/

/-- C10: `get_backend_status` and `get_backend_port` never return an error:
for every state of the supervisor they return `Ok` with a snapshot of
`(running, port)`, even though their interface type allows a textual
failure. -/
theorem status_and_port_never_fail (s : BackendState) :
    get_backend_status s = .ok { running := s.running, port := s.port } ∧
    get_backend_port s = .ok s.port :=
  ⟨rfl, rfl⟩

/-- C3: when `running` is already true, `start_backend` returns `Ok` with
the stored port, spawns nothing, and leaves the state unchanged; hence a
second start right after a successful first start returns the same port,
with the same state and no second spawn. -/
theorem start_backend_idempotent (env envSecond : StartEnv) (s : BackendState)
    (c : CommandChild) :
    (s.running = true →
      start_backend env s = { ret := .ok s.port, state := s, spawned := false }) ∧
    (s.running = false → env.sidecarResult = .ok () → env.spawnResult = .ok c →
      (start_backend env s).ret = .ok (start_backend env s).state.port ∧
      start_backend envSecond (start_backend env s).state =
        { ret := (start_backend env s).ret,
          state := (start_backend env s).state,
          spawned := false }) := by
  constructor
  · intro hr
    simp [start_backend, hr]
  · intro hr hsc hsp
    have h1 : start_backend env s =
        { ret := .ok (pick_unused_port_or_default env.pickResult),
          state := { child := some c,
                     port := pick_unused_port_or_default env.pickResult,
                     running := true },
          spawned := true } := by
      simp [start_backend, hr, hsc, hsp]
    rw [h1]
    exact ⟨rfl, by simp [start_backend]⟩

/-- Witness for C3 at concrete inputs: an already-running state, and a
fresh start from the default state followed by a second start. -/
theorem start_backend_idempotent_witness :
    start_backend envOk { child := some 2, port := 9105, running := true } =
      { ret := .ok 9105,
        state := { child := some 2, port := 9105, running := true },
        spawned := false } ∧
    start_backend envOk (start_backend envOk BackendState.default).state =
      { ret := (start_backend envOk BackendState.default).ret,
        state := (start_backend envOk BackendState.default).state,
        spawned := false } :=
  ⟨(start_backend_idempotent envOk envOk
      { child := some 2, port := 9105, running := true } 4).1 rfl,
   ((start_backend_idempotent envOk envOk BackendState.default 4).2 rfl rfl rfl).2⟩

/-- C4: `stop_backend` with no handle present (including when nothing was
ever started) returns `Ok` and only clears `running`; and after any
`stop_backend` call that returns `Ok`, `get_backend_status` reports
`running = false`. -/
theorem stop_backend_noop_and_status_stopped (k : Except String Unit)
    (s : BackendState) :
    (s.child = none → stop_backend k s = (.ok (), { s with running := false })) ∧
    ((stop_backend k s).1 = .ok () →
      get_backend_status (stop_backend k s).2 =
        .ok { running := false, port := (stop_backend k s).2.port }) := by
  constructor
  · intro hc
    simp [stop_backend, hc]
  · intro hok
    cases hc : s.child with
    | none => simp [stop_backend, hc, get_backend_status]
    | some c =>
      cases k with
      | ok u => simp [stop_backend, hc, get_backend_status]
      | error e => simp [stop_backend, hc] at hok

/-- Witness for C4: stopping the never-started default state succeeds and
the status afterwards reports not running. -/
theorem stop_backend_noop_and_status_stopped_witness :
    stop_backend (.ok ()) BackendState.default =
      (.ok (), { child := none, port := 8000, running := false }) ∧
    get_backend_status (stop_backend (.ok ()) BackendState.default).2 =
      .ok { running := false,
            port := (stop_backend (.ok ()) BackendState.default).2.port } :=
  ⟨(stop_backend_noop_and_status_stopped (.ok ()) BackendState.default).1 rfl,
   (stop_backend_noop_and_status_stopped (.ok ()) BackendState.default).2 rfl⟩

/-- C5: when `start_backend` reaches the spawn (state not running) and
sidecar creation or the spawn itself fails, the error is surfaced with the
corresponding message and the state is returned exactly as it was. -/
theorem start_backend_spawn_failure_frame (env : StartEnv) (s : BackendState)
    (e : String) (hr : s.running = false) :
    (env.sidecarResult = .error e →
      start_backend env s =
        { ret := .error ("Failed to create sidecar command: " ++ e),
          state := s, spawned := false }) ∧
    (env.sidecarResult = .ok () → env.spawnResult = .error e →
      start_backend env s =
        { ret := .error ("Failed to spawn sidecar: " ++ e),
          state := s, spawned := false }) := by
  constructor
  · intro hsc
    simp [start_backend, hr, hsc]
  · intro hsc hsp
    simp [start_backend, hr, hsc, hsp]

/-- Witness for C5: both failure modes at the default state. -/
theorem start_backend_spawn_failure_frame_witness :
    start_backend envSidecarErr BackendState.default =
      { ret := .error ("Failed to create sidecar command: " ++ "nope"),
        state := BackendState.default, spawned := false } ∧
    start_backend envSpawnErr BackendState.default =
      { ret := .error ("Failed to spawn sidecar: " ++ "nospawn"),
        state := BackendState.default, spawned := false } :=
  ⟨(start_backend_spawn_failure_frame envSidecarErr BackendState.default "nope" rfl).1 rfl,
   (start_backend_spawn_failure_frame envSpawnErr BackendState.default "nospawn" rfl).2
     rfl rfl⟩

/-- C7: `pick()` never fails: on allocation failure it returns the fixed
default 8000, on success the allocated port; assuming the external
allocator's contract (allocated ports lie in the valid range), the result
is never zero and never out of range. -/
theorem pick_unused_port_total (r : Option Nat)
    (hc : ∀ p, r = some p → ephemeralPort p) :
    pick_unused_port_or_default r ≠ 0 ∧
    pick_unused_port_or_default r ≤ 65535 ∧
    (r = none → pick_unused_port_or_default r = 8000) ∧
    (∀ p, r = some p → pick_unused_port_or_default r = p) := by
  cases r with
  | none =>
      refine ⟨by simp [pick_unused_port_or_default], by simp [pick_unused_port_or_default],
        fun _ => rfl, fun p hp => by cases hp⟩
  | some p =>
      obtain ⟨h1, h2⟩ := hc p rfl
      refine ⟨?_, ?_, ?_, ?_⟩
      · simp only [pick_unused_port_or_default, Option.getD_some]
        omega
      · simp only [pick_unused_port_or_default, Option.getD_some]
        omega
      · intro hp
        cases hp
      · intro q hq
        cases hq
        rfl

/-- Witness for C7: allocation failure falls back to 8000; a successful
allocation of 49152 is returned as-is and is nonzero. -/
theorem pick_unused_port_total_witness :
    pick_unused_port_or_default none = 8000 ∧
    pick_unused_port_or_default (some 49152) ≠ 0 ∧
    pick_unused_port_or_default (some 49152) = 49152 := by
  have hnone : ∀ p : Nat, (none : Option Nat) = some p → ephemeralPort p := by
    intro p hp
    cases hp
  have hsome : ∀ p : Nat, (some 49152 : Option Nat) = some p → ephemeralPort p := by
    intro p hp
    cases hp
    exact ⟨by norm_num, by norm_num⟩
  exact ⟨(pick_unused_port_total none hnone).2.2.1 rfl,
         (pick_unused_port_total (some 49152) hsome).1,
         (pick_unused_port_total (some 49152) hsome).2.2.2 49152 rfl⟩

/-- Counterexample for C1: from a running state that satisfies the
invariant, a `stop_backend` whose kill fails removes the handle but leaves
`running = true` (the `?` returns before `backend.running = false` runs),
so the invariant is not preserved by that path. -/
theorem stop_backend_kill_failure_breaks_inv :
    BackendState.inv { child := some 0, port := 8000, running := true } ∧
    (stop_backend (.error "kill failed")
        { child := some 0, port := 8000, running := true }).2 =
      { child := none, port := 8000, running := true } ∧
    ¬ BackendState.inv (stop_backend (.error "kill failed")
        { child := some 0, port := 8000, running := true }).2 :=
  ⟨by decide, by decide, by decide⟩

/-- C1 (amended): the invariant `running = handle present` holds initially
and is preserved by `start_backend` (every path), by the event-bridge task,
and by every `stop_backend` call that returns `Ok`; the kill-failure path
of `stop_backend` is the one mutation that breaks it. -/
theorem backend_inv_preserved :
    BackendState.inv BackendState.default ∧
    (∀ env s, BackendState.inv s → BackendState.inv (start_backend env s).state) ∧
    (∀ events s, BackendState.inv s → BackendState.inv (event_bridge events s).2) ∧
    (∀ k s, BackendState.inv s → (stop_backend k s).1 = .ok () →
      BackendState.inv (stop_backend k s).2) := by
  refine ⟨by decide, ?_, ?_, ?_⟩
  · intro env s hs
    cases hr : s.running with
    | false =>
        cases hsc : env.sidecarResult with
        | error e => simpa [start_backend, hr, hsc] using hs
        | ok u =>
            cases hsp : env.spawnResult with
            | error e => simpa [start_backend, hr, hsc, hsp] using hs
            | ok c => simp [start_backend, hr, hsc, hsp, BackendState.inv]
    | true => simpa [start_backend, hr] using hs
  · intro events s hs
    induction events with
    | nil => simpa [event_bridge] using hs
    | cons e rest ih =>
        cases e with
        | stdout line => simpa [event_bridge] using ih
        | stderr line => simpa [event_bridge] using ih
        | terminated code => simp [event_bridge, BackendState.inv]
        | other => simpa [event_bridge] using ih
  · intro k s hs hok
    cases hc : s.child with
    | none => simp [stop_backend, hc, BackendState.inv]
    | some c =>
        cases k with
        | error e => simp [stop_backend, hc] at hok
        | ok u => simp [stop_backend, hc, BackendState.inv]

/-- Witness for the amended C1: the invariant after a successful fresh
start from the default state, and after a successful stop of a running
state. -/
theorem backend_inv_preserved_witness :
    BackendState.inv (start_backend envOk BackendState.default).state ∧
    BackendState.inv (stop_backend (.ok ())
      { child := some 5, port := 9100, running := true }).2 :=
  ⟨backend_inv_preserved.2.1 envOk BackendState.default (by decide),
   backend_inv_preserved.2.2.2 (.ok ())
     { child := some 5, port := 9100, running := true } (by decide) (by decide)⟩

/-- Counterexample for C2: when the kill fails, `stop_backend` surfaces the
error and removes the handle, but `running` is not set to `false` — the
`?` operator returns before the reset line, so the state is not force-reset
to stopped. -/
theorem stop_backend_kill_failure_running_not_reset :
    (stop_backend (.error "boom")
        { child := some 0, port := 8000, running := true }).1 =
      .error "Failed to kill backend: boom" ∧
    (stop_backend (.error "boom")
        { child := some 0, port := 8000, running := true }).2.child = none ∧
    ¬ (stop_backend (.error "boom")
        { child := some 0, port := 8000, running := true }).2.running = false :=
  ⟨by decide, by decide, by decide⟩

/-- C2 (amended): when a handle is present and the kill fails,
`stop_backend` returns the kill error and removes the handle, leaving
`port` and `running` exactly as they were (in particular `running` stays
`true` for a previously running state). -/
theorem stop_backend_kill_failure_behavior (s : BackendState) (c : CommandChild)
    (e : String) (hc : s.child = some c) :
    stop_backend (.error e) s =
      (.error ("Failed to kill backend: " ++ e), { s with child := none }) := by
  simp [stop_backend, hc]

/-- Witness for the amended C2 at a concrete running state. -/
theorem stop_backend_kill_failure_behavior_witness :
    stop_backend (.error "boom") { child := some 3, port := 9100, running := true } =
      (.error ("Failed to kill backend: " ++ "boom"),
       { child := none, port := 9100, running := true }) :=
  stop_backend_kill_failure_behavior
    { child := some 3, port := 9100, running := true } 3 "boom" rfl

/-- C6: if the channel delivers some non-termination events, then a
termination with exit code `code`, then anything further, the event-bridge
task emits exactly one `backend-terminated` event, carrying `code`, and its
final state update clears the handle and sets `running = false` — the
events after the termination are never processed (the loop exits), and no
`stop` call is involved. -/
theorem event_bridge_terminated_once (pre post : List CommandEvent)
    (code : Option Int) (s : BackendState)
    (hpre : ∀ e ∈ pre, e.isTerminated = false) :
    (event_bridge (pre ++ .terminated code :: post) s).1.filter Emitted.isTerminated =
      [.backendTerminated code] ∧
    (event_bridge (pre ++ .terminated code :: post) s).2 =
      { s with running := false, child := none } := by
  induction pre with
  | nil => simp [event_bridge, Emitted.isTerminated]
  | cons e rest ih =>
      have hrest : ∀ x ∈ rest, x.isTerminated = false := fun x hx =>
        hpre x (List.mem_cons_of_mem e hx)
      obtain ⟨ih1, ih2⟩ := ih hrest
      cases e with
      | stdout line =>
          simp [event_bridge, Emitted.isTerminated, ih1, ih2]
      | stderr line =>
          simp [event_bridge, Emitted.isTerminated, ih1, ih2]
      | terminated c =>
          have := hpre (.terminated c) (List.mem_cons_self (.terminated c) rest)
          simp [CommandEvent.isTerminated] at this
      | other =>
          simp [event_bridge, ih1, ih2]

/-- Witness for C6: a stdout line and an ignored event precede termination
with exit code 1; a late stdout line is never processed. -/
theorem event_bridge_terminated_once_witness :
    (event_bridge [.stdout "ready", .other, .terminated (some 1), .stdout "late"]
        { child := some 3, port := 9100, running := true }).1.filter
        Emitted.isTerminated = [.backendTerminated (some 1)] ∧
    (event_bridge [.stdout "ready", .other, .terminated (some 1), .stdout "late"]
        { child := some 3, port := 9100, running := true }).2 =
      { child := none, port := 9100, running := false } :=
  event_bridge_terminated_once [.stdout "ready", .other] [.stdout "late"] (some 1)
    { child := some 3, port := 9100, running := true } (by decide)

/-- C8: `stop_backend` (both outcomes) and the event-bridge task never
change `port`; `start_backend` on a running state never changes `port`; and
whenever `start_backend` does change `port`, the state was not running and
a process was spawned — `port` is only reassigned by a fresh, spawning
start. -/
theorem port_only_reassigned_by_fresh_start :
    (∀ k s, (stop_backend k s).2.port = s.port) ∧
    (∀ events s, (event_bridge events s).2.port = s.port) ∧
    (∀ env s, s.running = true → (start_backend env s).state.port = s.port) ∧
    (∀ env s, (start_backend env s).state.port ≠ s.port →
      s.running = false ∧ (start_backend env s).spawned = true) := by
  refine ⟨?_, ?_, ?_, ?_⟩
  · intro k s
    cases hc : s.child with
    | none => simp [stop_backend, hc]
    | some c =>
        cases k with
        | error e => simp [stop_backend, hc]
        | ok u => simp [stop_backend, hc]
  · intro events s
    induction events with
    | nil => simp [event_bridge]
    | cons e rest ih =>
        cases e with
        | stdout line => simpa [event_bridge] using ih
        | stderr line => simpa [event_bridge] using ih
        | terminated code => simp [event_bridge]
        | other => simpa [event_bridge] using ih
  · intro env s hr
    simp [start_backend, hr]
  · intro env s hp
    cases hr : s.running with
    | true => simp [start_backend, hr] at hp
    | false =>
        refine ⟨rfl, ?_⟩
        cases hsc : env.sidecarResult with
        | error e => simp [start_backend, hr, hsc] at hp
        | ok u =>
            cases hsp : env.spawnResult with
            | error e => simp [start_backend, hr, hsc, hsp] at hp
            | ok c => simp [start_backend, hr, hsc, hsp]

/-- Witness for C8: `port` survives a stop, a termination handled by the
event bridge, and a start on an already-running state. -/
theorem port_only_reassigned_by_fresh_start_witness :
    (stop_backend (.ok ()) { child := some 2, port := 9105, running := true }).2.port
      = 9105 ∧
    (event_bridge [.terminated (some 1)]
      { child := some 2, port := 9105, running := true }).2.port = 9105 ∧
    (start_backend envOk
      { child := some 2, port := 9105, running := true }).state.port = 9105 :=
  ⟨port_only_reassigned_by_fresh_start.1 (.ok ())
     { child := some 2, port := 9105, running := true },
   port_only_reassigned_by_fresh_start.2.1 [.terminated (some 1)]
     { child := some 2, port := 9105, running := true },
   port_only_reassigned_by_fresh_start.2.2.1 envOk
     { child := some 2, port := 9105, running := true } rfl⟩

/-- Counterexample for C9: two concurrent `start_backend` calls against the
stopped initial configuration, interleaved so that both pass the `running`
check before either commits, spawn two processes, return different ports to
their callers, and leave only the second commit's port in shared state. -/
theorem concurrent_starts_double_spawn :
    (runSchedule [0, 1, 0, 1, 0, 1] (Conf.init 2)).spawnCount = 2 ∧
    ¬ (runSchedule [0, 1, 0, 1, 0, 1] (Conf.init 2)).spawnCount = 1 ∧
    (runSchedule [0, 1, 0, 1, 0, 1] (Conf.init 2)).tasks =
      [.done (.ok 9100), .done (.ok 9101)] ∧
    (runSchedule [0, 1, 0, 1, 0, 1] (Conf.init 2)).st.port = 9101 :=
  ⟨by decide, by decide, by decide, by decide⟩

/-- Helper: once the shared state shows `running = true`, any number of
further serialized `start_backend` calls return the stored port, change
nothing and spawn nothing. -/
theorem runStartsSeq_of_running (env : StartEnv) (n : Nat) (s : BackendState)
    (hr : s.running = true) :
    runStartsSeq env n s = (List.replicate n (.ok s.port), s, 0) := by
  induction n with
  | zero => simp [runStartsSeq]
  | succ m ih => simp [runStartsSeq, start_backend, hr, ih, List.replicate_succ]

/-- C9 (amended): serialized `start_backend` calls — each completing before
the next begins — against a stopped supervisor spawn exactly one process,
and every caller receives the same committed port; for unserialized
interleavings the property fails (see the counterexample). -/
theorem serialized_starts_spawn_once (env : StartEnv) (s : BackendState)
    (c : CommandChild) (n : Nat) (hr : s.running = false)
    (hsc : env.sidecarResult = .ok ()) (hsp : env.spawnResult = .ok c)
    (hn : 1 ≤ n) :
    (runStartsSeq env n s).2.2 = 1 ∧
    (runStartsSeq env n s).1 =
      List.replicate n (.ok (pick_unused_port_or_default env.pickResult)) := by
  obtain ⟨m, rfl⟩ : ∃ m, n = m + 1 := ⟨n - 1, by omega⟩
  have h1 : start_backend env s =
      { ret := .ok (pick_unused_port_or_default env.pickResult),
        state := { child := some c,
                   port := pick_unused_port_or_default env.pickResult,
                   running := true },
        spawned := true } := by
    simp [start_backend, hr, hsc, hsp]
  have h2 := runStartsSeq_of_running env m
    { child := some c, port := pick_unused_port_or_default env.pickResult,
      running := true } rfl
  simp [runStartsSeq, h1, h2, List.replicate_succ]

/-- Witness for the amended C9: three serialized start calls from the
default state spawn once and all return port 9200. -/
theorem serialized_starts_spawn_once_witness :
    (runStartsSeq envOk 3 BackendState.default).2.2 = 1 ∧
    (runStartsSeq envOk 3 BackendState.default).1 =
      [.ok 9200, .ok 9200, .ok 9200] :=
  serialized_starts_spawn_once envOk BackendState.default 4 3 rfl rfl rfl
    (by omega)
